import Mathlib

/-!
Shallow embedding of the proof-of-existence runtime module
(`src/runtime/src/poe.rs`) and verification of its specification.

The module keeps a storage map `Proofs : Vec<u8> => (AccountId, Moment)`,
together with per-account free/reserved balances managed through the
`ReservableCurrency` trait, and exposes two dispatchables, `create_claim`
and `revoke_claim`.  We embed the state explicitly: the storage map as an
association list (digest keyed), the currency as two balance functions,
the event deposit as an event list, and the timestamp module as a `now`
field.  Each dispatchable becomes a function from the state to a pair of
the (possibly mutated) state and an optional typed error; `None` is the
`Ok(())` result.
-/

namespace Poe

abbrev AccountId := Nat
abbrev Moment := Nat
abbrev Digest := List Nat

/-- Constant `DIGEST_MAXSIZE = 100` from the source. -/
def DIGEST_MAXSIZE : Nat := 100

/-- Constant `POE_FEE = 1000` from the source. -/
def POE_FEE : Nat := 1000

/-- The module's events (`decl_event!`): `ClaimCreated(AccountId, Moment, Vec<u8>)`
and `ClaimRevoked(AccountId, Vec<u8>)`. -/
inductive PoeEvent where
  | ClaimCreated (owner : AccountId) (time : Moment) (digest : Digest)
  | ClaimRevoked (owner : AccountId) (digest : Digest)
  deriving DecidableEq

/-- The typed failures of the two dispatchables. In the source these are the
`ensure!` error strings ("Digest too long (max 100 bytes)", "This proof has
already been claimed", "This proof has not been claimed yet", "You must own
this claim to revoke it") and the error propagated from `Currency::reserve`. -/
inductive PoeError where
  | DigestTooLong
  | AlreadyClaimed
  | NotClaimed
  | NotOwner
  | InsufficientBalance
  deriving DecidableEq

/-- The full state the module reads and writes: the `Proofs` storage map
(association list keyed by digest, value `(owner, createdAt)`), the currency's
free and reserved balances, the deposited events, and the timestamp module's
current time. -/
structure PoeState where
  proofs : List (Digest × (AccountId × Moment))
  freeBal : AccountId → Nat
  reservedBal : AccountId → Nat
  events : List PoeEvent
  now : Moment

/-- Storage check `<Proofs<T>>::exists(&digest)`. -/
def proofsExists (st : PoeState) (d : Digest) : Bool :=
  st.proofs.any (fun p => p.1 == d)

/-- Storage getter `Self::proofs(&digest)`; returns the default value
`(0, 0)` when the key is absent, as a non-`Option` `StorageMap` does. -/
def proofsGet (st : PoeState) (d : Digest) : AccountId × Moment :=
  match st.proofs.find? (fun p => p.1 == d) with
  | some p => p.2
  | none => (0, 0)

/-- Storage write `<Proofs<T>>::insert(&digest, v)`: inserts, overwriting any entry with the
same key. -/
def proofsInsert (st : PoeState) (d : Digest) (v : AccountId × Moment) : PoeState :=
  { st with proofs := (d, v) :: st.proofs.filter (fun p => !(p.1 == d)) }

/-- Storage erase `<Proofs<T>>::remove(&digest)`. -/
def proofsRemove (st : PoeState) (d : Digest) : PoeState :=
  { st with proofs := st.proofs.filter (fun p => !(p.1 == d)) }

/-- Event deposit `Self::deposit_event(e)`. -/
def deposit_event (st : PoeState) (e : PoeEvent) : PoeState :=
  { st with events := st.events ++ [e] }

/-- Currency call `T::Currency::reserve(&who, amount)`: moves `amount` from free to reserved
balance when the free balance suffices, otherwise fails without mutation.
The boolean is `true` on success. -/
def reserve (st : PoeState) (who : AccountId) (amount : Nat) : PoeState × Bool :=
  if amount ≤ st.freeBal who then
    ({ st with
        freeBal := fun a => if a == who then st.freeBal a - amount else st.freeBal a,
        reservedBal := fun a => if a == who then st.reservedBal a + amount else st.reservedBal a },
      true)
  else (st, false)

/-- Currency call `T::Currency::unreserve(&who, amount)`: moves back as much of `amount` as
is actually reserved and returns the part that could not be unreserved (the
source discards this returned remainder). -/
def unreserve (st : PoeState) (who : AccountId) (amount : Nat) : PoeState × Nat :=
  let actual := min (st.reservedBal who) amount
  ({ st with
      freeBal := fun a => if a == who then st.freeBal a + actual else st.freeBal a,
      reservedBal := fun a => if a == who then st.reservedBal a - actual else st.reservedBal a },
    amount - actual)

/-- Dispatchable `fn create_claim(origin, digest)`: size gate, existence gate, read the
time, reserve the fee (propagating failure), store the claim, emit
`ClaimCreated`. -/
def create_claim (sender : AccountId) (digest : Digest) (st : PoeState) :
    PoeState × Option PoeError :=
  if DIGEST_MAXSIZE < digest.length then (st, some .DigestTooLong)
  else if proofsExists st digest then (st, some .AlreadyClaimed)
  else
    let time := st.now
    let r := reserve st sender POE_FEE
    if r.2 then
      (deposit_event (proofsInsert r.1 digest (sender, time))
        (.ClaimCreated sender time digest), none)
    else (r.1, some .InsufficientBalance)

/-- Dispatchable `fn revoke_claim(origin, digest)`: size gate, existence gate, owner gate,
remove the claim, unreserve the fee (return value discarded), emit
`ClaimRevoked`. -/
def revoke_claim (sender : AccountId) (digest : Digest) (st : PoeState) :
    PoeState × Option PoeError :=
  if DIGEST_MAXSIZE < digest.length then (st, some .DigestTooLong)
  else if !(proofsExists st digest) then (st, some .NotClaimed)
  else
    let owner := (proofsGet st digest).1
    if !(sender == owner) then (st, some .NotOwner)
    else
      (deposit_event (unreserve (proofsRemove st digest) sender POE_FEE).1
        (.ClaimRevoked sender digest), none)

/-- One dispatch: which function is called, by whom, on which digest. -/
inductive Op where
  | create (sender : AccountId) (digest : Digest)
  | revoke (sender : AccountId) (digest : Digest)

/-- Apply one dispatch to the state (the dispatch layer keeps the returned
state whether the call succeeded or failed). -/
def step (st : PoeState) (op : Op) : PoeState :=
  match op with
  | .create s d => (create_claim s d st).1
  | .revoke s d => (revoke_claim s d st).1

/-- Apply a sequence of dispatches in order. -/
def run (st : PoeState) (ops : List Op) : PoeState :=
  ops.foldl step st

/-- The state produced by a successful `create_claim` (all gates passed),
written out field by field; used to state the characterisation lemmas. -/
def createOkState (sender : AccountId) (digest : Digest) (st : PoeState) : PoeState :=
  { proofs := (digest, (sender, st.now)) :: st.proofs.filter (fun p => !(p.1 == digest)),
    freeBal := fun a => if a == sender then st.freeBal a - POE_FEE else st.freeBal a,
    reservedBal := fun a => if a == sender then st.reservedBal a + POE_FEE else st.reservedBal a,
    events := st.events ++ [PoeEvent.ClaimCreated sender st.now digest],
    now := st.now }

/-- The state produced by a successful `revoke_claim` (all gates passed),
written out field by field. -/
def revokeOkState (sender : AccountId) (digest : Digest) (st : PoeState) : PoeState :=
  { proofs := st.proofs.filter (fun p => !(p.1 == digest)),
    freeBal := fun a =>
      if a == sender then st.freeBal a + min (st.reservedBal sender) POE_FEE
      else st.freeBal a,
    reservedBal := fun a =>
      if a == sender then st.reservedBal a - min (st.reservedBal sender) POE_FEE
      else st.reservedBal a,
    events := st.events ++ [PoeEvent.ClaimRevoked sender digest],
    now := st.now }

/-- The genesis state of the module's test externalities: empty storage,
accounts 1 and 2 funded with 10000 free units, nothing reserved. -/
def testState : PoeState :=
  { proofs := []
    freeBal := fun a => if a == 1 then 10000 else if a == 2 then 10000 else 0
    reservedBal := fun _ => 0
    events := []
    now := 0 }

/-- The test state after account 1 has claimed digest `[0]` (scenario 1 of the
module's test). -/
def testClaimed : PoeState :=
  (create_claim 1 [0] testState).1

/-- A state in which account 1 holds the claim on digest `[0]` but the escrow
holds no reserved balance for it — the registry/escrow invariant is broken
from outside, so the unreserve performed by a revoke cannot release the fee. -/
def escrowMismatchState : PoeState :=
  { proofs := [([0], (1, 0))]
    freeBal := fun _ => 0
    reservedBal := fun _ => 0
    events := []
    now := 0 }

/-! ### Basic lemmas about the embedded operations -/

theorem create_claim_too_long {sender : AccountId} {digest : Digest} {st : PoeState}
    (h : DIGEST_MAXSIZE < digest.length) :
    create_claim sender digest st = (st, some PoeError.DigestTooLong) := by
  unfold create_claim
  rw [if_pos h]

theorem create_claim_already {sender : AccountId} {digest : Digest} {st : PoeState}
    (hlen : digest.length ≤ DIGEST_MAXSIZE) (hex : proofsExists st digest = true) :
    create_claim sender digest st = (st, some PoeError.AlreadyClaimed) := by
  unfold create_claim
  rw [if_neg (by omega), if_pos hex]

theorem create_claim_insufficient {sender : AccountId} {digest : Digest} {st : PoeState}
    (hlen : digest.length ≤ DIGEST_MAXSIZE) (hex : proofsExists st digest = false)
    (hbal : st.freeBal sender < POE_FEE) :
    create_claim sender digest st = (st, some PoeError.InsufficientBalance) := by
  have h1 : ¬ DIGEST_MAXSIZE < digest.length := by omega
  have h2 : ¬ POE_FEE ≤ st.freeBal sender := by omega
  simp [create_claim, reserve, h1, h2, hex]

theorem create_claim_ok {sender : AccountId} {digest : Digest} {st : PoeState}
    (hlen : digest.length ≤ DIGEST_MAXSIZE) (hex : proofsExists st digest = false)
    (hbal : POE_FEE ≤ st.freeBal sender) :
    create_claim sender digest st = (createOkState sender digest st, none) := by
  have h1 : ¬ DIGEST_MAXSIZE < digest.length := by omega
  simp [create_claim, reserve, proofsInsert, deposit_event, createOkState, h1, hex, hbal]

theorem revoke_claim_too_long {sender : AccountId} {digest : Digest} {st : PoeState}
    (h : DIGEST_MAXSIZE < digest.length) :
    revoke_claim sender digest st = (st, some PoeError.DigestTooLong) := by
  unfold revoke_claim
  rw [if_pos h]

theorem revoke_claim_not_claimed {sender : AccountId} {digest : Digest} {st : PoeState}
    (hlen : digest.length ≤ DIGEST_MAXSIZE) (hex : proofsExists st digest = false) :
    revoke_claim sender digest st = (st, some PoeError.NotClaimed) := by
  have h1 : ¬ DIGEST_MAXSIZE < digest.length := by omega
  simp [revoke_claim, h1, hex]

theorem revoke_claim_not_owner {sender : AccountId} {digest : Digest} {st : PoeState}
    (hlen : digest.length ≤ DIGEST_MAXSIZE) (hex : proofsExists st digest = true)
    (hown : sender ≠ (proofsGet st digest).1) :
    revoke_claim sender digest st = (st, some PoeError.NotOwner) := by
  have h1 : ¬ DIGEST_MAXSIZE < digest.length := by omega
  simp [revoke_claim, h1, hex, hown]

theorem revoke_claim_ok {sender : AccountId} {digest : Digest} {st : PoeState}
    (hlen : digest.length ≤ DIGEST_MAXSIZE) (hex : proofsExists st digest = true)
    (hown : sender = (proofsGet st digest).1) :
    revoke_claim sender digest st = (revokeOkState sender digest st, none) := by
  have h1 : ¬ DIGEST_MAXSIZE < digest.length := by omega
  simp [revoke_claim, unreserve, proofsRemove, deposit_event, revokeOkState, h1, hex, hown]

/-- Inversion: a successful `create_claim` means all three gates passed. -/
theorem create_claim_ok_inv {sender : AccountId} {digest : Digest} {st : PoeState}
    (h : (create_claim sender digest st).2 = none) :
    digest.length ≤ DIGEST_MAXSIZE ∧ proofsExists st digest = false ∧
      POE_FEE ≤ st.freeBal sender := by
  by_cases h1 : DIGEST_MAXSIZE < digest.length
  · rw [create_claim_too_long h1] at h
    exact absurd h (by simp)
  · have hlen : digest.length ≤ DIGEST_MAXSIZE := by omega
    by_cases h2 : proofsExists st digest = true
    · rw [create_claim_already hlen h2] at h
      exact absurd h (by simp)
    · have hex : proofsExists st digest = false := by
        simpa using h2
      by_cases h3 : POE_FEE ≤ st.freeBal sender
      · exact ⟨hlen, hex, h3⟩
      · rw [create_claim_insufficient hlen hex (by omega)] at h
        exact absurd h (by simp)

theorem key_filter_map_fst (d : Digest) (l : List (Digest × (AccountId × Moment))) :
    (l.filter (fun p => !(p.1 == d))).map Prod.fst
      = (l.map Prod.fst).filter (fun k => !(k == d)) := by
  induction l with
  | nil => rfl
  | cons p t ih => by_cases h : p.1 == d <;> simp [List.filter_cons, h, ih]

theorem any_key_filter (d : Digest) (l : List (Digest × (AccountId × Moment))) :
    (l.filter (fun p => !(p.1 == d))).any (fun p => p.1 == d) = false := by
  induction l with
  | nil => rfl
  | cons p t ih => by_cases h : p.1 == d <;> simp [List.filter_cons, h, ih]

/-- Shape of the storage after `create_claim`: either untouched (a gate
failed) or the digest was within bounds and the new claim heads the map with
the old binding for that key filtered away. -/
theorem create_claim_proofs_shape (sender : AccountId) (digest : Digest) (st : PoeState) :
    (create_claim sender digest st).1.proofs = st.proofs ∨
      (digest.length ≤ DIGEST_MAXSIZE ∧
        (create_claim sender digest st).1.proofs
          = (digest, (sender, st.now)) :: st.proofs.filter (fun p => !(p.1 == digest))) := by
  by_cases h1 : DIGEST_MAXSIZE < digest.length
  · left
    rw [create_claim_too_long h1]
  · have hlen : digest.length ≤ DIGEST_MAXSIZE := by omega
    by_cases h2 : proofsExists st digest = true
    · left
      rw [create_claim_already hlen h2]
    · have hex : proofsExists st digest = false := by simpa using h2
      by_cases h3 : POE_FEE ≤ st.freeBal sender
      · right
        refine ⟨hlen, ?_⟩
        rw [create_claim_ok hlen hex h3]
        rfl
      · left
        rw [create_claim_insufficient hlen hex (by omega)]

/-- Shape of the storage after `revoke_claim`: untouched or the key filtered
out. -/
theorem revoke_claim_proofs_shape (sender : AccountId) (digest : Digest) (st : PoeState) :
    (revoke_claim sender digest st).1.proofs = st.proofs ∨
      (revoke_claim sender digest st).1.proofs
        = st.proofs.filter (fun p => !(p.1 == digest)) := by
  by_cases h1 : DIGEST_MAXSIZE < digest.length
  · left
    rw [revoke_claim_too_long h1]
  · have hlen : digest.length ≤ DIGEST_MAXSIZE := by omega
    by_cases h2 : proofsExists st digest = true
    · by_cases h3 : sender = (proofsGet st digest).1
      · right
        rw [revoke_claim_ok hlen h2 h3]
        rfl
      · left
        rw [revoke_claim_not_owner hlen h2 h3]
    · left
      rw [revoke_claim_not_claimed hlen (by simpa using h2)]

/-! ### Component lemmas about the two success states -/

theorem createOkState_get_self (sender : AccountId) (digest : Digest) (st : PoeState) :
    proofsGet (createOkState sender digest st) digest = (sender, st.now) := by
  simp [proofsGet, createOkState, List.find?]

theorem createOkState_exists_self (sender : AccountId) (digest : Digest) (st : PoeState) :
    proofsExists (createOkState sender digest st) digest = true := by
  simp [proofsExists, createOkState]

theorem createOkState_free_self (sender : AccountId) (digest : Digest) (st : PoeState) :
    (createOkState sender digest st).freeBal sender = st.freeBal sender - POE_FEE := by
  simp [createOkState]

theorem createOkState_reserved_self (sender : AccountId) (digest : Digest) (st : PoeState) :
    (createOkState sender digest st).reservedBal sender
      = st.reservedBal sender + POE_FEE := by
  simp [createOkState]

theorem createOkState_free_other (sender : AccountId) (digest : Digest) (st : PoeState)
    (a : AccountId) (h : a ≠ sender) :
    (createOkState sender digest st).freeBal a = st.freeBal a := by
  simp [createOkState, h]

theorem createOkState_reserved_other (sender : AccountId) (digest : Digest) (st : PoeState)
    (a : AccountId) (h : a ≠ sender) :
    (createOkState sender digest st).reservedBal a = st.reservedBal a := by
  simp [createOkState, h]

theorem revokeOkState_exists_self (sender : AccountId) (digest : Digest) (st : PoeState) :
    proofsExists (revokeOkState sender digest st) digest = false := by
  simp [proofsExists, revokeOkState]

theorem revokeOkState_free_self (sender : AccountId) (digest : Digest) (st : PoeState) :
    (revokeOkState sender digest st).freeBal sender
      = st.freeBal sender + min (st.reservedBal sender) POE_FEE := by
  simp [revokeOkState]

theorem revokeOkState_reserved_self (sender : AccountId) (digest : Digest) (st : PoeState) :
    (revokeOkState sender digest st).reservedBal sender
      = st.reservedBal sender - min (st.reservedBal sender) POE_FEE := by
  simp [revokeOkState]

theorem revokeOkState_free_other (sender : AccountId) (digest : Digest) (st : PoeState)
    (a : AccountId) (h : a ≠ sender) :
    (revokeOkState sender digest st).freeBal a = st.freeBal a := by
  simp [revokeOkState, h]

theorem revokeOkState_reserved_other (sender : AccountId) (digest : Digest) (st : PoeState)
    (a : AccountId) (h : a ≠ sender) :
    (revokeOkState sender digest st).reservedBal a = st.reservedBal a := by
  simp [revokeOkState, h]

/-- One dispatch preserves distinctness of the storage keys. -/
theorem step_keys_nodup (st : PoeState) (op : Op)
    (h : (st.proofs.map Prod.fst).Nodup) :
    ((step st op).proofs.map Prod.fst).Nodup := by
  cases op with
  | create s d =>
    show ((create_claim s d st).1.proofs.map Prod.fst).Nodup
    rcases create_claim_proofs_shape s d st with hs | ⟨-, hs⟩
    · rw [hs]
      exact h
    · rw [hs]
      simp only [List.map_cons, key_filter_map_fst]
      refine List.nodup_cons.mpr ⟨?_, h.filter _⟩
      simp [List.mem_filter]
  | revoke s d =>
    show ((revoke_claim s d st).1.proofs.map Prod.fst).Nodup
    rcases revoke_claim_proofs_shape s d st with hs | hs
    · rw [hs]
      exact h
    · rw [hs, key_filter_map_fst]
      exact h.filter _

/-- A whole dispatch sequence preserves distinctness of the storage keys. -/
theorem run_keys_nodup (ops : List Op) (st : PoeState)
    (h : (st.proofs.map Prod.fst).Nodup) :
    ((run st ops).proofs.map Prod.fst).Nodup := by
  induction ops generalizing st with
  | nil => exact h
  | cons op t ih => exact ih (step st op) (step_keys_nodup st op h)

/-- One dispatch preserves the digest-length bound on every stored key. -/
theorem step_keys_short (st : PoeState) (op : Op)
    (h : ∀ p ∈ st.proofs, p.1.length ≤ DIGEST_MAXSIZE) :
    ∀ p ∈ (step st op).proofs, p.1.length ≤ DIGEST_MAXSIZE := by
  cases op with
  | create s d =>
    show ∀ p ∈ (create_claim s d st).1.proofs, p.1.length ≤ DIGEST_MAXSIZE
    rcases create_claim_proofs_shape s d st with hs | ⟨hlen, hs⟩
    · rw [hs]
      exact h
    · rw [hs]
      intro p hp
      rcases List.mem_cons.mp hp with rfl | hp
      · exact hlen
      · exact h p (List.mem_filter.mp hp).1
  | revoke s d =>
    show ∀ p ∈ (revoke_claim s d st).1.proofs, p.1.length ≤ DIGEST_MAXSIZE
    rcases revoke_claim_proofs_shape s d st with hs | hs
    · rw [hs]
      exact h
    · rw [hs]
      intro p hp
      exact h p (List.mem_filter.mp hp).1

/-- A whole dispatch sequence preserves the digest-length bound. -/
theorem run_keys_short (ops : List Op) (st : PoeState)
    (h : ∀ p ∈ st.proofs, p.1.length ≤ DIGEST_MAXSIZE) :
    ∀ p ∈ (run st ops).proofs, p.1.length ≤ DIGEST_MAXSIZE := by
  induction ops generalizing st with
  | nil => exact h
  | cons op t ih => exact ih (step st op) (step_keys_short st op h)

/-! ### Claim theorems -/

/-- C1: `create_claim` checks its gates in the stated order and returns the
matching typed failure with the state unchanged: `DigestTooLong` when the
digest exceeds 100 bytes, else `AlreadyClaimed` when the digest is live, else
`InsufficientBalance` when the fee reservation fails; when all gates pass it
stores the claim `(sender, now)`, moves `POE_FEE = 1000` units from the
sender's free to reserved balance, appends a `ClaimCreated` event, and
returns success. -/
theorem poe_C1_create_claim_gates (sender : AccountId) (digest : Digest) (st : PoeState) :
    (DIGEST_MAXSIZE < digest.length →
        create_claim sender digest st = (st, some PoeError.DigestTooLong)) ∧
    (digest.length ≤ DIGEST_MAXSIZE → proofsExists st digest = true →
        create_claim sender digest st = (st, some PoeError.AlreadyClaimed)) ∧
    (digest.length ≤ DIGEST_MAXSIZE → proofsExists st digest = false →
        st.freeBal sender < POE_FEE →
        create_claim sender digest st = (st, some PoeError.InsufficientBalance)) ∧
    (digest.length ≤ DIGEST_MAXSIZE → proofsExists st digest = false →
        POE_FEE ≤ st.freeBal sender →
        (create_claim sender digest st).2 = none ∧
        proofsGet (create_claim sender digest st).1 digest = (sender, st.now) ∧
        (create_claim sender digest st).1.freeBal sender = st.freeBal sender - POE_FEE ∧
        (create_claim sender digest st).1.reservedBal sender
          = st.reservedBal sender + POE_FEE ∧
        (create_claim sender digest st).1.events
          = st.events ++ [PoeEvent.ClaimCreated sender st.now digest]) := by
  refine ⟨fun h1 => create_claim_too_long h1,
    fun hlen hex => create_claim_already hlen hex,
    fun hlen hex hbal => create_claim_insufficient hlen hex hbal,
    fun hlen hex hbal => ?_⟩
  rw [create_claim_ok hlen hex hbal]
  exact ⟨rfl, createOkState_get_self sender digest st,
    createOkState_free_self sender digest st,
    createOkState_reserved_self sender digest st, rfl⟩

/-- Witness for C1: on the test genesis state, account 1 claiming digest `[0]`
passes all gates and produces exactly the described state. -/
theorem poe_C1_witness :
    ([0] : Digest).length ≤ DIGEST_MAXSIZE ∧ proofsExists testState [0] = false ∧
      POE_FEE ≤ testState.freeBal 1 ∧
      ((create_claim 1 [0] testState).2 = none ∧
        proofsGet (create_claim 1 [0] testState).1 [0] = (1, testState.now) ∧
        (create_claim 1 [0] testState).1.freeBal 1 = testState.freeBal 1 - POE_FEE ∧
        (create_claim 1 [0] testState).1.reservedBal 1
          = testState.reservedBal 1 + POE_FEE ∧
        (create_claim 1 [0] testState).1.events
          = testState.events ++ [PoeEvent.ClaimCreated 1 testState.now [0]]) :=
  ⟨by decide, by decide, by decide,
    (poe_C1_create_claim_gates 1 [0] testState).2.2.2 (by decide) (by decide) (by decide)⟩

/-- C2: `revoke_claim` checks its gates in the stated order and returns the
matching typed failure with the state unchanged: `DigestTooLong` when the
digest exceeds 100 bytes, else `NotClaimed` when the digest has no live
claim, else `NotOwner` when the stored owner differs from the sender; when
all gates pass it removes the digest, moves the reserved fee (`POE_FEE` when
at least that much is reserved) back to the sender's free balance, appends a
`ClaimRevoked` event, and returns success. -/
theorem poe_C2_revoke_claim_gates (sender : AccountId) (digest : Digest) (st : PoeState) :
    (DIGEST_MAXSIZE < digest.length →
        revoke_claim sender digest st = (st, some PoeError.DigestTooLong)) ∧
    (digest.length ≤ DIGEST_MAXSIZE → proofsExists st digest = false →
        revoke_claim sender digest st = (st, some PoeError.NotClaimed)) ∧
    (digest.length ≤ DIGEST_MAXSIZE → proofsExists st digest = true →
        sender ≠ (proofsGet st digest).1 →
        revoke_claim sender digest st = (st, some PoeError.NotOwner)) ∧
    (digest.length ≤ DIGEST_MAXSIZE → proofsExists st digest = true →
        sender = (proofsGet st digest).1 →
        (revoke_claim sender digest st).2 = none ∧
        proofsExists (revoke_claim sender digest st).1 digest = false ∧
        (revoke_claim sender digest st).1.events
          = st.events ++ [PoeEvent.ClaimRevoked sender digest] ∧
        (POE_FEE ≤ st.reservedBal sender →
          (revoke_claim sender digest st).1.freeBal sender
            = st.freeBal sender + POE_FEE ∧
          (revoke_claim sender digest st).1.reservedBal sender
            = st.reservedBal sender - POE_FEE)) := by
  refine ⟨fun h1 => revoke_claim_too_long h1,
    fun hlen hex => revoke_claim_not_claimed hlen hex,
    fun hlen hex hown => revoke_claim_not_owner hlen hex hown,
    fun hlen hex hown => ?_⟩
  rw [revoke_claim_ok hlen hex hown]
  refine ⟨rfl, revokeOkState_exists_self sender digest st, rfl, fun hres => ?_⟩
  have hmin : min (st.reservedBal sender) POE_FEE = POE_FEE := Nat.min_eq_right hres
  constructor
  · rw [revokeOkState_free_self, hmin]
  · rw [revokeOkState_reserved_self, hmin]

/-- Witness for C2: on the test state where account 1 holds digest `[0]`,
account 1 revoking it passes all gates and produces exactly the described
state. -/
theorem poe_C2_witness :
    ([0] : Digest).length ≤ DIGEST_MAXSIZE ∧ proofsExists testClaimed [0] = true ∧
      (1 : AccountId) = (proofsGet testClaimed [0]).1 ∧
      POE_FEE ≤ testClaimed.reservedBal 1 ∧
      ((revoke_claim 1 [0] testClaimed).2 = none ∧
        proofsExists (revoke_claim 1 [0] testClaimed).1 [0] = false ∧
        (revoke_claim 1 [0] testClaimed).1.events
          = testClaimed.events ++ [PoeEvent.ClaimRevoked 1 [0]] ∧
        ((revoke_claim 1 [0] testClaimed).1.freeBal 1 = testClaimed.freeBal 1 + POE_FEE ∧
          (revoke_claim 1 [0] testClaimed).1.reservedBal 1
            = testClaimed.reservedBal 1 - POE_FEE)) :=
  ⟨by decide, by decide, by decide, by decide, by
    obtain ⟨h1, h2, h3, h4⟩ :=
      (poe_C2_revoke_claim_gates 1 [0] testClaimed).2.2.2 (by decide) (by decide) (by decide)
    exact ⟨h1, h2, h3, h4 (by decide)⟩⟩

/-- C3: in every state reachable by any sequence of `create_claim` /
`revoke_claim` dispatches from a state with distinct storage keys, each
digest maps to at most one claim (the key list stays duplicate-free), and a
`create_claim` on an already-claimed digest leaves the state untouched and
does not succeed, so it never replaces the existing owner. -/
theorem poe_C3_uniqueness (st : PoeState) (ops : List Op)
    (hnd : (st.proofs.map Prod.fst).Nodup) :
    ((run st ops).proofs.map Prod.fst).Nodup ∧
    (∀ sender digest, proofsExists st digest = true →
      (create_claim sender digest st).1 = st ∧
        (create_claim sender digest st).2 ≠ none) := by
  refine ⟨run_keys_nodup ops st hnd, fun sender digest hex => ?_⟩
  by_cases h1 : DIGEST_MAXSIZE < digest.length
  · rw [create_claim_too_long h1]
    exact ⟨rfl, by simp⟩
  · rw [create_claim_already (by omega) hex]
    exact ⟨rfl, by simp⟩

/-- Witness for C3: starting from the claimed test state (duplicate-free
keys), a concrete dispatch sequence keeps the keys duplicate-free, and a
create on the live digest `[0]` mutates nothing and fails. -/
theorem poe_C3_witness :
    (testClaimed.proofs.map Prod.fst).Nodup ∧
      (((run testClaimed [Op.create 2 [1], Op.revoke 1 [0]]).proofs.map Prod.fst).Nodup ∧
        (∀ sender digest, proofsExists testClaimed digest = true →
          (create_claim sender digest testClaimed).1 = testClaimed ∧
            (create_claim sender digest testClaimed).2 ≠ none)) :=
  ⟨by decide, poe_C3_uniqueness testClaimed [Op.create 2 [1], Op.revoke 1 [0]] (by decide)⟩

/-- C4: whenever `create_claim` or `revoke_claim` returns a failure, the
returned state is exactly the starting state — the storage map, every
account's balances, and the event list are unchanged. -/
theorem poe_C4_atomic_failure (sender : AccountId) (digest : Digest) (st : PoeState)
    (e : PoeError) :
    ((create_claim sender digest st).2 = some e → (create_claim sender digest st).1 = st) ∧
    ((revoke_claim sender digest st).2 = some e → (revoke_claim sender digest st).1 = st) := by
  constructor
  · intro h
    by_cases h1 : DIGEST_MAXSIZE < digest.length
    · rw [create_claim_too_long h1]
    · have hlen : digest.length ≤ DIGEST_MAXSIZE := by omega
      by_cases h2 : proofsExists st digest = true
      · rw [create_claim_already hlen h2]
      · have hex : proofsExists st digest = false := by simpa using h2
        by_cases h3 : POE_FEE ≤ st.freeBal sender
        · rw [create_claim_ok hlen hex h3] at h
          simp at h
        · rw [create_claim_insufficient hlen hex (by omega)]
  · intro h
    by_cases h1 : DIGEST_MAXSIZE < digest.length
    · rw [revoke_claim_too_long h1]
    · have hlen : digest.length ≤ DIGEST_MAXSIZE := by omega
      by_cases h2 : proofsExists st digest = true
      · by_cases h3 : sender = (proofsGet st digest).1
        · rw [revoke_claim_ok hlen h2 h3] at h
          simp at h
        · rw [revoke_claim_not_owner hlen h2 h3]
      · rw [revoke_claim_not_claimed hlen (by simpa using h2)]

/-- Witness for C4: on the test genesis state, an oversized create and a
revoke of an unclaimed digest both fail and both leave the state exactly as
it was. -/
theorem poe_C4_witness :
    ((create_claim 1 (List.replicate 101 0) testState).2 = some PoeError.DigestTooLong ∧
      (create_claim 1 (List.replicate 101 0) testState).1 = testState) ∧
    ((revoke_claim 2 [1] testState).2 = some PoeError.NotClaimed ∧
      (revoke_claim 2 [1] testState).1 = testState) :=
  ⟨⟨by decide,
      (poe_C4_atomic_failure 1 (List.replicate 101 0) testState PoeError.DigestTooLong).1
        (by decide)⟩,
    ⟨by decide,
      (poe_C4_atomic_failure 2 [1] testState PoeError.NotClaimed).2 (by decide)⟩⟩

/-- C5: a successful `create_claim` followed by a `revoke_claim` of the same
digest by the same account succeeds and returns that account's free and
reserved balances exactly to their values before the create: the reserve of
`POE_FEE` and the subsequent unreserve of `POE_FEE` compose to the identity
on the balance split. -/
theorem poe_C5_fee_round_trip (sender : AccountId) (digest : Digest) (st : PoeState)
    (h : (create_claim sender digest st).2 = none) :
    (revoke_claim sender digest (create_claim sender digest st).1).2 = none ∧
    (revoke_claim sender digest (create_claim sender digest st).1).1.freeBal sender
      = st.freeBal sender ∧
    (revoke_claim sender digest (create_claim sender digest st).1).1.reservedBal sender
      = st.reservedBal sender := by
  obtain ⟨hlen, hex, hbal⟩ := create_claim_ok_inv h
  rw [create_claim_ok hlen hex hbal]
  show (revoke_claim sender digest (createOkState sender digest st)).2 = none ∧ _
  have hex1 : proofsExists (createOkState sender digest st) digest = true :=
    createOkState_exists_self sender digest st
  have hown : sender = (proofsGet (createOkState sender digest st) digest).1 := by
    rw [createOkState_get_self]
  rw [revoke_claim_ok hlen hex1 hown]
  refine ⟨rfl, ?_, ?_⟩
  · rw [revokeOkState_free_self, createOkState_free_self, createOkState_reserved_self]
    have hmin : min (st.reservedBal sender + POE_FEE) POE_FEE = POE_FEE :=
      Nat.min_eq_right (Nat.le_add_left _ _)
    rw [hmin]
    omega
  · rw [revokeOkState_reserved_self, createOkState_reserved_self]
    have hmin : min (st.reservedBal sender + POE_FEE) POE_FEE = POE_FEE :=
      Nat.min_eq_right (Nat.le_add_left _ _)
    rw [hmin]
    omega

/-- Witness for C5: account 1 creating then revoking digest `[0]` from the
test genesis state ends with its original 10000 free / 0 reserved split. -/
theorem poe_C5_witness :
    (create_claim 1 [0] testState).2 = none ∧
      ((revoke_claim 1 [0] (create_claim 1 [0] testState).1).2 = none ∧
        (revoke_claim 1 [0] (create_claim 1 [0] testState).1).1.freeBal 1
          = testState.freeBal 1 ∧
        (revoke_claim 1 [0] (create_claim 1 [0] testState).1).1.reservedBal 1
          = testState.reservedBal 1) :=
  ⟨by decide, poe_C5_fee_round_trip 1 [0] testState (by decide)⟩

/-- C6 counterexample: in a state where account 1 holds the claim on `[0]`
but the escrow has nothing reserved, the unreserve performed inside
`revoke_claim` reports that the whole fee could not be released (remainder
`POE_FEE`), yet `revoke_claim` still returns success — the failure is
silently swallowed, not propagated as any error. -/
theorem poe_C6_counterexample :
    (unreserve (proofsRemove escrowMismatchState [0]) 1 POE_FEE).2 = POE_FEE ∧
      (revoke_claim 1 [0] escrowMismatchState).2 = none := by
  exact ⟨by decide, by decide⟩

/-- C6 amended: once the size, existence and ownership gates pass,
`revoke_claim` returns success unconditionally — the value returned by the
escrow's unreserve is discarded, and no escrow-inconsistency failure exists
in the code, even when nothing was reserved. -/
theorem poe_C6_unreserve_ignored (sender : AccountId) (digest : Digest) (st : PoeState)
    (hlen : digest.length ≤ DIGEST_MAXSIZE) (hex : proofsExists st digest = true)
    (hown : sender = (proofsGet st digest).1) :
    (revoke_claim sender digest st).2 = none := by
  rw [revoke_claim_ok hlen hex hown]

/-- Witness for the amended C6: revoking on the escrow-mismatch state passes
the gates and returns success even though no fee was reserved. -/
theorem poe_C6_witness :
    ([0] : Digest).length ≤ DIGEST_MAXSIZE ∧
      proofsExists escrowMismatchState [0] = true ∧
      (1 : AccountId) = (proofsGet escrowMismatchState [0]).1 ∧
      (revoke_claim 1 [0] escrowMismatchState).2 = none :=
  ⟨by decide, by decide, by decide,
    poe_C6_unreserve_ignored 1 [0] escrowMismatchState (by decide) (by decide) (by decide)⟩

/-- C7: both dispatchables reject with `DigestTooLong` exactly when the
digest exceeds `DIGEST_MAXSIZE = 100` bytes — a digest within the bound is
never rejected on size grounds — and along any dispatch sequence from a
state whose stored digests are within the bound, every stored digest stays
within the bound. -/
theorem poe_C7_size_bound (sender : AccountId) (digest : Digest) (st : PoeState)
    (ops : List Op) :
    ((create_claim sender digest st).2 = some PoeError.DigestTooLong ↔
        DIGEST_MAXSIZE < digest.length) ∧
    ((revoke_claim sender digest st).2 = some PoeError.DigestTooLong ↔
        DIGEST_MAXSIZE < digest.length) ∧
    ((∀ p ∈ st.proofs, p.1.length ≤ DIGEST_MAXSIZE) →
        ∀ p ∈ (run st ops).proofs, p.1.length ≤ DIGEST_MAXSIZE) := by
  refine ⟨⟨fun h => ?_, fun h => by rw [create_claim_too_long h]⟩,
    ⟨fun h => ?_, fun h => by rw [revoke_claim_too_long h]⟩,
    run_keys_short ops st⟩
  · by_contra hc
    have hlen : digest.length ≤ DIGEST_MAXSIZE := by omega
    by_cases h2 : proofsExists st digest = true
    · rw [create_claim_already hlen h2] at h
      simp at h
    · have hex : proofsExists st digest = false := by simpa using h2
      by_cases h3 : POE_FEE ≤ st.freeBal sender
      · rw [create_claim_ok hlen hex h3] at h
        simp at h
      · rw [create_claim_insufficient hlen hex (by omega)] at h
        simp at h
  · by_contra hc
    have hlen : digest.length ≤ DIGEST_MAXSIZE := by omega
    by_cases h2 : proofsExists st digest = true
    · by_cases h3 : sender = (proofsGet st digest).1
      · rw [revoke_claim_ok hlen h2 h3] at h
        simp at h
      · rw [revoke_claim_not_owner hlen h2 h3] at h
        simp at h
    · rw [revoke_claim_not_claimed hlen (by simpa using h2)] at h
      simp at h

/-- Witness for C7: the genesis test state has only bounded digests, a
concrete dispatch sequence keeps them bounded, and a 101-byte digest is
rejected by both dispatchables. -/
theorem poe_C7_witness :
    (∀ p ∈ testState.proofs, p.1.length ≤ DIGEST_MAXSIZE) ∧
    (∀ p ∈ (run testState [Op.create 1 [0], Op.create 2 [1, 2]]).proofs,
        p.1.length ≤ DIGEST_MAXSIZE) ∧
    DIGEST_MAXSIZE < (List.replicate 101 0 : Digest).length ∧
    (create_claim 1 (List.replicate 101 0) testState).2 = some PoeError.DigestTooLong ∧
    (revoke_claim 1 (List.replicate 101 0) testState).2 = some PoeError.DigestTooLong := by
  have h0 : ∀ p ∈ testState.proofs, p.1.length ≤ DIGEST_MAXSIZE := by
    simp [testState]
  refine ⟨h0, (poe_C7_size_bound 1 [0] testState [Op.create 1 [0], Op.create 2 [1, 2]]).2.2 h0,
    by decide,
    (poe_C7_size_bound 1 (List.replicate 101 0) testState []).1.mpr (by decide),
    (poe_C7_size_bound 1 (List.replicate 101 0) testState []).2.1.mpr (by decide)⟩

/-- C8: for any digest within the size bound and any two distinct accounts A
and B whose free balances cover the fee, the cycle create(A), revoke(A),
create(B) succeeds step by step on the same digest, and at the end B owns
the claim: Unclaimed → Claimed(A) → Unclaimed → Claimed(B) is reachable. -/
theorem poe_C8_cycle (A B : AccountId) (d : Digest) (st : PoeState)
    (hAB : A ≠ B) (hlen : d.length ≤ DIGEST_MAXSIZE)
    (hex : proofsExists st d = false)
    (hA : POE_FEE ≤ st.freeBal A) (hB : POE_FEE ≤ st.freeBal B) :
    (create_claim A d st).2 = none ∧
    (revoke_claim A d (create_claim A d st).1).2 = none ∧
    (create_claim B d (revoke_claim A d (create_claim A d st).1).1).2 = none ∧
    (proofsGet (create_claim B d (revoke_claim A d (create_claim A d st).1).1).1 d).1
      = B := by
  have e1 : (create_claim A d st).1 = createOkState A d st := by
    rw [create_claim_ok hlen hex hA]
  have e1b : (create_claim A d st).2 = none := by
    rw [create_claim_ok hlen hex hA]
  have hown1 : A = (proofsGet (createOkState A d st) d).1 := by
    rw [createOkState_get_self]
  have e2 : (revoke_claim A d (createOkState A d st)).1
      = revokeOkState A d (createOkState A d st) := by
    rw [revoke_claim_ok hlen (createOkState_exists_self A d st) hown1]
  have e2b : (revoke_claim A d (createOkState A d st)).2 = none := by
    rw [revoke_claim_ok hlen (createOkState_exists_self A d st) hown1]
  have hex2 : proofsExists (revokeOkState A d (createOkState A d st)) d = false :=
    revokeOkState_exists_self A d (createOkState A d st)
  have hB2 : POE_FEE ≤ (revokeOkState A d (createOkState A d st)).freeBal B := by
    rw [revokeOkState_free_other A d (createOkState A d st) B (Ne.symm hAB),
      createOkState_free_other A d st B (Ne.symm hAB)]
    exact hB
  have e3 : (create_claim B d (revokeOkState A d (createOkState A d st))).1
      = createOkState B d (revokeOkState A d (createOkState A d st)) := by
    rw [create_claim_ok hlen hex2 hB2]
  have e3b : (create_claim B d (revokeOkState A d (createOkState A d st))).2 = none := by
    rw [create_claim_ok hlen hex2 hB2]
  refine ⟨e1b, ?_, ?_, ?_⟩
  · rw [e1]
    exact e2b
  · rw [e1, e2]
    exact e3b
  · rw [e1, e2, e3, createOkState_get_self]

/-- Witness for C8: on the genesis test state, account 1 claims `[0]`,
revokes it, and account 2 then claims it and owns it. -/
theorem poe_C8_witness :
    (1 : AccountId) ≠ 2 ∧ ([0] : Digest).length ≤ DIGEST_MAXSIZE ∧
      proofsExists testState [0] = false ∧
      POE_FEE ≤ testState.freeBal 1 ∧ POE_FEE ≤ testState.freeBal 2 ∧
      ((create_claim 1 [0] testState).2 = none ∧
        (revoke_claim 1 [0] (create_claim 1 [0] testState).1).2 = none ∧
        (create_claim 2 [0] (revoke_claim 1 [0] (create_claim 1 [0] testState).1).1).2
          = none ∧
        (proofsGet
            (create_claim 2 [0] (revoke_claim 1 [0] (create_claim 1 [0] testState).1).1).1
            [0]).1 = 2) :=
  ⟨by decide, by decide, by decide, by decide, by decide,
    poe_C8_cycle 1 2 [0] testState (by decide) (by decide) (by decide) (by decide)
      (by decide)⟩

/-- C9: the two dispatchables are deterministic — equal caller, equal
digest, and equal starting state (which carries the time-source reading, the
storage, the balances, and the event log) produce equal results: the same
returned error-or-success, the same final state, and the same emitted
events. -/
theorem poe_C9_deterministic (s1 s2 : AccountId) (d1 d2 : Digest) (st1 st2 : PoeState)
    (hs : s1 = s2) (hd : d1 = d2) (hst : st1 = st2) :
    create_claim s1 d1 st1 = create_claim s2 d2 st2 ∧
      revoke_claim s1 d1 st1 = revoke_claim s2 d2 st2 := by
  subst hs
  subst hd
  subst hst
  exact ⟨rfl, rfl⟩

/-- Witness for C9: two textually identical invocations on the genesis test
state coincide. -/
theorem poe_C9_witness :
    (1 : AccountId) = 1 ∧ ([0] : Digest) = [0] ∧ testState = testState ∧
      (create_claim 1 [0] testState = create_claim 1 [0] testState ∧
        revoke_claim 1 [0] testState = revoke_claim 1 [0] testState) :=
  ⟨rfl, rfl, rfl, poe_C9_deterministic 1 1 [0] [0] testState testState rfl rfl rfl⟩

/-- C10: the empty digest is a valid claim key — its length is within the
bound, so for any caller, in any state where it is unclaimed and the
caller's free balance covers the fee, `create_claim` on the empty digest
succeeds and stores the caller as owner. -/
theorem poe_C10_empty_digest (sender : AccountId) (st : PoeState)
    (hex : proofsExists st [] = false) (hbal : POE_FEE ≤ st.freeBal sender) :
    (create_claim sender [] st).2 = none ∧
      proofsGet (create_claim sender [] st).1 [] = (sender, st.now) := by
  have hlen : ([] : Digest).length ≤ DIGEST_MAXSIZE := by
    simp [DIGEST_MAXSIZE]
  rw [create_claim_ok hlen hex hbal]
  exact ⟨rfl, createOkState_get_self sender [] st⟩

/-- Witness for C10: account 1 successfully claims the empty digest on the
genesis test state. -/
theorem poe_C10_witness :
    proofsExists testState [] = false ∧ POE_FEE ≤ testState.freeBal 1 ∧
      ((create_claim 1 [] testState).2 = none ∧
        proofsGet (create_claim 1 [] testState).1 [] = (1, testState.now)) :=
  ⟨by decide, by decide, poe_C10_empty_digest 1 testState (by decide) (by decide)⟩

end Poe
